import Mathlib

/-!
Shallow embedding of the InheritX backend authentication core
(`src/backend/src/auth.rs`, `src/backend/src/two_fa.rs`,
`src/backend/src/two_fa/service.rs`, `src/backend/src/handlers/two_fa.rs`).

Modelling conventions:
* Database state is projected onto a single identity / wallet address: every
  SQL statement in the modelled functions filters on the key column
  (`user_id` resp. `wallet_address`), and both tables enforce at most one row
  per key (`ON CONFLICT (user_id)` / `ON CONFLICT (wallet_address)` upserts,
  and the delete-then-insert pattern), so a per-key `Option row` is a faithful
  projection of the table.
* Timestamps (`chrono::DateTime<Utc>`) are integers (seconds);
  `Duration::minutes(5)` is `300`, `Duration::hours(24)` is `86400`.
* bcrypt (external crate) is idealised as a collision-free keyed commitment:
  a hash is a value that remembers the hashed secret, and `verify` compares
  against it.  The random salt only affects the representation of real bcrypt
  strings, not the verify relation, and is dropped.
* Ed25519 (crate `ring`) is idealised as perfectly unforgeable: a signature
  records the signer's public key and the signed message, and verification
  checks both.  Strkey decoding of a `G` address to a public key is a
  bijection, so public keys are identified with the address string; the
  `BadRequest` paths for malformed addresses / non-hex signatures are
  orthogonal to the claims and elided.
* The JWT crate (`jsonwebtoken`) is idealised as an EUF-CMA-perfect MAC over
  the claims: a token stores the claims and a tag `(secret, claims)`;
  `decode` with `Validation::default()` rejects a bad tag and an expired
  `exp` claim (clock-skew leeway idealised to zero).
* Each operation also returns the list of database actions it executed, in
  order, which makes "runs inside a transaction", "reads with FOR UPDATE",
  and "never reaches the hash compare" directly statable.
-/

namespace InheritX

/-- The error taxonomy of `api_error.rs`, as used at every call site in
`auth.rs` and the `two_fa` modules. -/
inductive ApiError where
  | badRequest (msg : String)
  | unauthorized
  | notFound (msg : String)
  | forbidden (msg : String)
  | internal
  deriving DecidableEq, Repr

/-- Idealised bcrypt hash (crate `bcrypt`): the hash commits to the hashed
secret; the per-call random salt does not affect the verify relation and is
dropped. -/
structure BcryptHash where
  secret : String
  deriving DecidableEq, Repr

/-- `bcrypt::hash(otp, DEFAULT_COST)`. -/
def bcryptHash (s : String) : BcryptHash := ⟨s⟩

/-- `bcrypt::verify(otp, hash)`: true iff `otp` is the committed secret. -/
def bcryptVerify (s : String) (h : BcryptHash) : Bool := s == h.secret

/-- One database / crypto action executed by an operation, recorded in order.
`selectOtpForUpdate` is `SELECT ... FROM user_2fa ... FOR UPDATE`;
`selectNonceForUpdate` is `SELECT ... FROM nonces ... FOR UPDATE`. -/
inductive DbAction where
  | txBegin
  | txCommit
  | selectOtp
  | selectOtpForUpdate
  | deleteOtp
  | incrementAttempts
  | insertOtp
  | bcryptCompare
  | selectNonceForUpdate
  | upsertNonce
  | deleteNonce
  | selectUser
  | insertUser
  deriving DecidableEq, Repr

/-- A `user_2fa` row (`two_fa/models.rs` `User2FA`, `two_fa.rs` `TwoFaRecord`):
`{id, user_id, otp_hash, expires_at, attempts, created_at}`, projected on a
fixed `user_id` (the key), with `created_at` dropped (unused by the modelled
logic). -/
structure OtpRow where
  id : Nat
  otp_hash : BcryptHash
  expires_at : Int
  attempts : Int
  deriving DecidableEq, Repr

/-- The `user_2fa` table projected onto one identity: at most one live row. -/
abbrev OtpState := Option OtpRow

/-- `MAX_ATTEMPTS` from `two_fa.rs` and `two_fa/service.rs`. -/
def MAX_ATTEMPTS : Int := 3

/-- Result of one OTP store operation: the Rust return value, the post state
of the identity's `user_2fa` row, and the trace of database actions. -/
structure OtpStep (α : Type) where
  result : Except ApiError α
  state : OtpState
  trace : List DbAction

/-- `auth.rs` `verify_2fa_internal` (lines 408-458): a transaction is begun,
the row is read with `FOR UPDATE`, then missing-row, `attempts >= 3`, and
expiry are checked in that order; the error returns before `tx.commit()`, so
the transaction rolls back and the row is left unchanged.  Only the
wrong-code path (increment) and the success path (delete) commit. -/
def verify_2fa_internal (s : OtpState) (now : Int) (otp : String) :
    OtpStep Unit :=
  match s with
  | none =>
      ⟨.error (.badRequest "No pending OTP found"), none,
        [.txBegin, .selectOtpForUpdate]⟩
  | some row =>
      if row.attempts ≥ 3 then
        ⟨.error (.badRequest "Too many verification attempts. Please request a new OTP."),
          some row, [.txBegin, .selectOtpForUpdate]⟩
      else if row.expires_at < now then
        ⟨.error (.badRequest "OTP has expired"), some row,
          [.txBegin, .selectOtpForUpdate]⟩
      else if bcryptVerify otp row.otp_hash then
        ⟨.ok (), none,
          [.txBegin, .selectOtpForUpdate, .bcryptCompare, .deleteOtp, .txCommit]⟩
      else
        ⟨.error .unauthorized, some { row with attempts := row.attempts + 1 },
          [.txBegin, .selectOtpForUpdate, .bcryptCompare, .incrementAttempts, .txCommit]⟩

/-- `DELETE FROM user_2fa WHERE id = $1`: removes the live row only if its
`id` matches (the row may already have been deleted or replaced by a
concurrent request). -/
def deleteOtpById (s : OtpState) (i : Nat) : OtpState :=
  match s with
  | some row => if row.id = i then none else some row
  | none => none

/-- `UPDATE user_2fa SET attempts = attempts + 1 WHERE id = $1`. -/
def incrementAttemptsById (s : OtpState) (i : Nat) : OtpState :=
  match s with
  | some row =>
      if row.id = i then some { row with attempts := row.attempts + 1 }
      else some row
  | none => none

namespace TwoFAService

/-- The `SELECT * FROM user_2fa WHERE user_id = $1 ORDER BY created_at DESC
LIMIT 1` read of `TwoFAService::verify_otp_from_db` (no `FOR UPDATE`, no
transaction): returns the identity's current row, if any. -/
def fetch_record (s : OtpState) : Option OtpRow := s

/-- The remainder of `TwoFAService::verify_otp_from_db`
(`two_fa/service.rs` lines 76-122), applied to a previously `fetch_record`ed
row and the *current* store state.  Because the function runs on the bare
pool with no transaction and no row lock, other requests may commit between
the fetch and these statements, which is why the fetched value and the
current state are separate arguments.  Check order: missing row, expiry
(`Utc::now() > expires_at`), `attempts >= MAX_ATTEMPTS`, then the bcrypt
compare; every delete / update is keyed by the fetched row's `id`. -/
def finish_verify (fetched : Option OtpRow) (s : OtpState) (now : Int)
    (otp : String) : OtpStep Bool :=
  match fetched with
  | none => ⟨.error (.badRequest "No OTP found for this user"), s, []⟩
  | some record =>
      if now > record.expires_at then
        ⟨.error (.badRequest "OTP has expired"), deleteOtpById s record.id,
          [.deleteOtp]⟩
      else if record.attempts ≥ MAX_ATTEMPTS then
        ⟨.error (.badRequest "Maximum verification attempts exceeded"),
          deleteOtpById s record.id, [.deleteOtp]⟩
      else if bcryptVerify otp record.otp_hash then
        ⟨.ok true, deleteOtpById s record.id, [.bcryptCompare, .deleteOtp]⟩
      else
        ⟨.error (.badRequest "Invalid OTP"), incrementAttemptsById s record.id,
          [.bcryptCompare, .incrementAttempts]⟩

/-- `TwoFAService::verify_otp_from_db` run without interference: the fetch
immediately followed by the rest of the operation. -/
def verify_otp_from_db (s : OtpState) (now : Int) (otp : String) :
    OtpStep Bool :=
  let r := finish_verify (fetch_record s) s now otp
  ⟨r.result, r.state, .selectOtp :: r.trace⟩

end TwoFAService

/-- `two_fa.rs` `verify_otp_from_db` (lines 65-123): same pool-level (no
transaction, no lock) shape as the service version, with the same check
order (missing row, expiry `expires_at < Utc::now()`, `attempts >=
MAX_ATTEMPTS`, bcrypt compare), but a wrong code returns `Ok(false)` instead
of an error, and the messages differ. -/
def verify_otp_from_db (s : OtpState) (now : Int) (otp : String) :
    OtpStep Bool :=
  match s with
  | none => ⟨.error (.badRequest "No OTP found for user"), none, [.selectOtp]⟩
  | some record =>
      if record.expires_at < now then
        ⟨.error (.badRequest "OTP has expired"),
          deleteOtpById (some record) record.id, [.selectOtp, .deleteOtp]⟩
      else if record.attempts ≥ MAX_ATTEMPTS then
        ⟨.error (.badRequest "Too many attempts. Please request a new OTP"),
          deleteOtpById (some record) record.id, [.selectOtp, .deleteOtp]⟩
      else if bcryptVerify otp record.otp_hash then
        ⟨.ok true, deleteOtpById (some record) record.id,
          [.selectOtp, .bcryptCompare, .deleteOtp]⟩
      else
        ⟨.ok false, incrementAttemptsById (some record) record.id,
          [.selectOtp, .bcryptCompare, .incrementAttempts]⟩

namespace handlers

/-- `handlers/two_fa.rs` `verify_2fa` (lines 64-84): validates the submitted
code (`otp.len() != 6 || !otp.chars().all(is_ascii_digit)` → `BadRequest`)
*before* calling `verify_otp_from_db`; `Ok(true)` becomes the success
response and `Ok(false)` becomes `BadRequest "Invalid OTP"`.  (For strings
accepted by the check, Rust's byte length and the character count agree,
since every character is an ASCII digit.) -/
def verify_2fa (s : OtpState) (now : Int) (otp : String) : OtpStep String :=
  if otp.length != 6 || !(otp.toList.all Char.isDigit) then
    ⟨.error (.badRequest "Invalid OTP format. Must be 6 digits"), s, []⟩
  else
    let r := verify_otp_from_db s now otp
    match r.result with
    | .ok true => ⟨.ok "OTP verified successfully", r.state, r.trace⟩
    | .ok false => ⟨.error (.badRequest "Invalid OTP"), r.state, r.trace⟩
    | .error e => ⟨.error e, r.state, r.trace⟩

end handlers

/-- `auth.rs` `send_2fa` OTP generator (lines 343-350): four random bytes are
read into a `u32` (`% 2^32` makes the machine-integer range explicit), then
`(u32 % 900_000) + 100_000`. -/
def generate_otp_auth (r : Nat) : Nat := r % 4294967296 % 900000 + 100000

/-- `format!("{:06}", n)`: decimal representation left-padded with zeros to
width 6. -/
def zeroPad6 (n : Nat) : String :=
  String.mk (List.replicate (6 - (Nat.repr n).length) '0') ++ Nat.repr n

/-- `TwoFAService::generate_otp` (`two_fa/service.rs` lines 16-19):
`format!("{:06}", rng.gen_range(0..1000000))`, with the uniform draw from
`0..1000000` modelled as `r % 1000000` of the random source `r`. -/
def generate_otp_service (r : Nat) : String := zeroPad6 (r % 1000000)

/-- The numeric value drawn by `two_fa.rs` `generate_otp` (lines 22-26):
`rng.gen_range(100000..999999)` — a half-open range, i.e. uniform over
`[100000, 999998]`, modelled as `100000 + r % 899999`. -/
def generate_otp_mod_num (r : Nat) : Nat := 100000 + r % 899999

/-- `two_fa.rs` `generate_otp`: the drawn value rendered with `to_string()`. -/
def generate_otp_mod (r : Nat) : String := Nat.repr (generate_otp_mod_num r)

/-- `INSERT INTO user_2fa ... ON CONFLICT (user_id) DO UPDATE SET otp_hash,
expires_at, attempts = 0` (`auth.rs` lines 359-374): a replacing upsert keyed
by `user_id`.  A pre-existing row keeps its `id`; a fresh insert gets the
database-assigned `newId`. -/
def upsertOtp (s : OtpState) (newId : Nat) (h : BcryptHash) (exp : Int) :
    OtpState :=
  match s with
  | some row => some { row with otp_hash := h, expires_at := exp, attempts := 0 }
  | none => some { id := newId, otp_hash := h, expires_at := exp, attempts := 0 }

/-- Result of `auth.rs` `send_2fa`: the Rust return value, the post state of
the identity's `user_2fa` row, and the lines emitted via `tracing::info!`. -/
structure SendStep where
  result : Except ApiError String
  state : OtpState
  logs : List String

/-- `auth.rs` `send_2fa` (lines 328-395): checks the user exists
(`NotFound` otherwise), draws the OTP from four random bytes, stores only
`bcrypt::hash(otp)` with `expires_at = now + 5 minutes` and `attempts = 0`
via the replacing upsert — and then logs the plaintext code with
`tracing::info!("OTP Code: {}", otp)` as a mock of email delivery.
`rand` is the value of the four random bytes, `newId` the database-assigned
row id, `uid` the rendering of `payload.user_id`. -/
def send_2fa (s : OtpState) (userExists : Bool) (now : Int) (rand : Nat)
    (newId : Nat) (uid : String) : SendStep :=
  if !userExists then
    ⟨.error (.notFound "User not found"), s, []⟩
  else
    let otp := Nat.repr (generate_otp_auth rand)
    ⟨.ok "OTP sent successfully",
      upsertOtp s newId (bcryptHash otp) (now + 300),
      ["--- [2FA OTP] ---", "User ID: " ++ uid, "OTP Code: " ++ otp,
        "-----------------"]⟩

/-- A `nonces` row (`auth.rs` `get_nonce` / `web3_login`), projected on a
fixed `wallet_address` (the conflict key): `{nonce, expires_at}`. -/
structure NonceRow where
  nonce : String
  expires_at : Int
  deriving DecidableEq, Repr

/-- The `nonces` table projected onto one wallet address: `ON CONFLICT
(wallet_address)` keeps at most one live row. -/
abbrev NonceState := Option NonceRow

/-- `auth.rs` `get_nonce` (lines 61-83): a fresh random identifier
(`Uuid::new_v4`, modelled as the input `freshNonce`) is upserted for the
address with `expires_at = now + 5 minutes`, replacing any prior row
(`ON CONFLICT (wallet_address) DO UPDATE SET nonce, expires_at`). -/
def get_nonce (_s : NonceState) (freshNonce : String) (now : Int) :
    String × NonceState :=
  (freshNonce, some { nonce := freshNonce, expires_at := now + 300 })

/-- An Ed25519 signature (crate `ring`), idealised as unforgeable: it records
the signer's public key and the exact signed message. -/
structure Ed25519Sig where
  signerKey : String
  message : String
  deriving DecidableEq, Repr

/-- `UnparsedPublicKey::verify(msg, sig)` under the idealisation: the
signature is valid iff it was produced by the holder of `pubkey` over
exactly `msg`.  Public keys are identified with the (bijectively strkey-
decoded) wallet address. -/
def ed25519Verify (pubkey : String) (msg : String) (sig : Ed25519Sig) : Bool :=
  sig.signerKey == pubkey && sig.message == msg

/-- A `users` row as read / written by `web3_login` (lines 142-164). -/
structure UserRec where
  id : String
  email : String
  wallet_address : String
  deriving DecidableEq, Repr

/-- `SELECT id, email FROM users WHERE wallet_address = $1`. -/
def findUserByWallet (users : List UserRec) (a : String) : Option UserRec :=
  users.find? (fun u => u.wallet_address == a)

/-- `UserClaims` (`auth.rs` lines 465-470): the payload of an issued token. -/
structure UserClaims where
  user_id : String
  email : String
  exp : Int
  deriving DecidableEq, Repr

/-- A JWT under the idealised-MAC model: the claims plus a tag that a forger
cannot produce without the secret. -/
structure Jwt where
  claims : UserClaims
  tag : String × UserClaims
  deriving DecidableEq, Repr

/-- `jsonwebtoken::encode(&Header::default(), &claims,
&EncodingKey::from_secret(secret))`. -/
def jwt_encode (secret : String) (c : UserClaims) : Jwt := ⟨c, (secret, c)⟩

/-- Token issuance as wired in `web3_login` / `login_user` (`auth.rs` lines
166-183): claims are completed with `exp = now + ttl` (the call sites use
`Duration::hours(24)`, i.e. `ttl = 86400`) and signed with the server
secret. -/
def issue_token (secret : String) (now ttl : Int) (uid email : String) : Jwt :=
  jwt_encode secret { user_id := uid, email := email, exp := now + ttl }

/-- `jsonwebtoken::decode` with `Validation::default()` followed by the
`.map_err(|_| ApiError::Unauthorized)` of `AuthenticatedUser::
from_request_parts` (`auth.rs` lines 511-517): a token with a wrong tag or
with `exp` in the past is rejected as `Unauthorized`; otherwise the embedded
claims are returned. -/
def decode_and_validate (secret : String) (now : Int) (t : Jwt) :
    Except ApiError UserClaims :=
  if t.tag = (secret, t.claims) then
    if t.claims.exp < now then .error .unauthorized else .ok t.claims
  else .error .unauthorized

/-- Result of `auth.rs` `web3_login`: the Rust return value, the post state
of the address's `nonces` row, the `users` table, and the database trace. -/
structure LoginStep where
  result : Except ApiError Jwt
  nonces : NonceState
  users : List UserRec
  trace : List DbAction

/-- `auth.rs` `web3_login` (lines 85-199): begins a transaction, reads the
address's nonce row with `FOR UPDATE`, fails `Unauthorized` if the row is
missing or `expires_at < now` (the transaction rolls back, leaving the row),
verifies the signature over exactly the stored nonce string (failure →
`Unauthorized`, rollback), finds or creates the user (on the pool, outside
the transaction), issues a 24h JWT, then deletes the nonce row `WHERE
wallet_address = $1 AND nonce = $2` inside the transaction — under the held
row lock this matches the row just read, so `rows_affected = 1` — and
commits.  `newUserId` is the `Uuid::new_v4` drawn on the create path. -/
def web3_login (s : NonceState) (users : List UserRec) (secret : String)
    (address : String) (sig : Ed25519Sig) (now : Int) (newUserId : String) :
    LoginStep :=
  match s with
  | none =>
      ⟨.error .unauthorized, none, users, [.txBegin, .selectNonceForUpdate]⟩
  | some row =>
      if row.expires_at < now then
        ⟨.error .unauthorized, some row, users,
          [.txBegin, .selectNonceForUpdate]⟩
      else if ed25519Verify address row.nonce sig then
        match findUserByWallet users address with
        | some u =>
            ⟨.ok (issue_token secret now 86400 u.id u.email), none, users,
              [.txBegin, .selectNonceForUpdate, .selectUser, .deleteNonce,
                .txCommit]⟩
        | none =>
            let email := address ++ "@inheritx.auth"
            ⟨.ok (issue_token secret now 86400 newUserId email), none,
              users ++ [⟨newUserId, email, address⟩],
              [.txBegin, .selectNonceForUpdate, .selectUser, .insertUser,
                .deleteNonce, .txCommit]⟩
      else
        ⟨.error .unauthorized, some row, users,
          [.txBegin, .selectNonceForUpdate]⟩

/-! Concrete fixtures used by the counterexamples and witnesses below.  All
use the challenge code "123456" (so `bcryptHash "123456"` is the stored
hash) and the timeline: issued with `expires_at = 1000`, checked at
`now = 500` (live) or against `expires_at = 100` (expired). -/

/-- A live, unexpired challenge row with the attempts counter at
`MAX_ATTEMPTS`. -/
def rowExhausted : OtpRow := ⟨1, bcryptHash "123456", 1000, 3⟩

/-- An expired challenge row with zero attempts. -/
def rowExpired : OtpRow := ⟨1, bcryptHash "123456", 100, 0⟩

/-- A live, unexpired challenge row with zero attempts. -/
def rowLive : OtpRow := ⟨1, bcryptHash "123456", 1000, 0⟩

/-- An expired challenge row whose attempts counter has also reached
`MAX_ATTEMPTS`. -/
def rowExhaustedExpired : OtpRow := ⟨1, bcryptHash "123456", 100, 3⟩

/-- Request A of the `TwoFAService::verify_otp_from_db` race: it fetches the
live row and runs to completion.  Legal because the function holds no
transaction and no row lock, so nothing orders the two requests'
statements. -/
def raceA : OtpStep Bool :=
  TwoFAService.finish_verify (TwoFAService.fetch_record (some rowLive))
    (some rowLive) 500 "123456"

/-- Request B of the race: its `SELECT` also ran before A's `DELETE`
committed (it fetched the same live row), and the rest of it runs after A
finished, against A's post state. -/
def raceB : OtpStep Bool :=
  TwoFAService.finish_verify (TwoFAService.fetch_record (some rowLive))
    raceA.state 500 "123456"

/-- The numeric value of a decimal digit string (how a consumer parses the
emitted OTP code): fold the characters' decimal values. -/
def strVal (s : String) : Nat :=
  s.data.foldl (fun a c => 10 * a + (c.toNat - 48)) 0

/-- A live nonce row holding the challenge string "n1", expiring at 1000. -/
def nonceRow1 : NonceRow := ⟨"n1", 1000⟩

/-- A signature by the holder of address "GA" over the nonce string "n1". -/
def sigGA : Ed25519Sig := ⟨"GA", "n1"⟩

/-! Claim theorems. -/

/-- C1 counterexample: on a live row whose attempts counter has reached
`MAX_ATTEMPTS`, `auth.rs` `verify_2fa_internal` — the claim's first cited
implementation — returns the attempts-exhausted outcome but does NOT delete
the challenge row: the error returns before `tx.commit()`, the transaction
rolls back, and the row is still there, refuting "deletes the challenge row
... afterwards no OTP row for that identity remains". -/
theorem C1_counterexample :
    (verify_2fa_internal (some rowExhausted) 500 "123456").result
        = .error (.badRequest "Too many verification attempts. Please request a new OTP.")
      ∧ (verify_2fa_internal (some rowExhausted) 500 "123456").state
        = some rowExhausted
      ∧ some rowExhausted ≠ (none : OtpState) := by
  refine ⟨rfl, rfl, by simp⟩

/-- C1 amended: a verification call against a challenge whose attempts
counter has reached `MAX_ATTEMPTS` (3) — even one submitting the correct
code — returns the attempts-exhausted outcome in all three
implementations; `TwoFAService::verify_otp_from_db` and `two_fa.rs`
`verify_otp_from_db` also delete the challenge row (when the row is not
already expired, in which case their expiry check fires first), but `auth.rs`
`verify_2fa_internal` leaves the row in place (its transaction rolls back
without deleting). -/
theorem C1_attempts_exhausted_amended :
    (∀ (row : OtpRow) (now : Int) (otp : String), row.attempts ≥ 3 →
        (verify_2fa_internal (some row) now otp).result
            = .error (.badRequest "Too many verification attempts. Please request a new OTP.")
          ∧ (verify_2fa_internal (some row) now otp).state = some row)
    ∧ (∀ (row : OtpRow) (now : Int) (otp : String),
        row.attempts ≥ MAX_ATTEMPTS → ¬ now > row.expires_at →
        (TwoFAService.verify_otp_from_db (some row) now otp).result
            = .error (.badRequest "Maximum verification attempts exceeded")
          ∧ (TwoFAService.verify_otp_from_db (some row) now otp).state = none)
    ∧ (∀ (row : OtpRow) (now : Int) (otp : String),
        row.attempts ≥ MAX_ATTEMPTS → ¬ row.expires_at < now →
        (verify_otp_from_db (some row) now otp).result
            = .error (.badRequest "Too many attempts. Please request a new OTP")
          ∧ (verify_otp_from_db (some row) now otp).state = none) := by
  refine ⟨?_, ?_, ?_⟩
  · intro row now otp h
    simp [verify_2fa_internal, h]
  · intro row now otp h hexp
    simp [TwoFAService.verify_otp_from_db, TwoFAService.finish_verify,
      TwoFAService.fetch_record, deleteOtpById, h, hexp]
  · intro row now otp h hexp
    simp [verify_otp_from_db, deleteOtpById, h, hexp]

/-- C1 witness: the amended theorem applied to the concrete exhausted row at
`now = 500` with the correct code "123456" — the service implementation
deletes the row while `verify_2fa_internal` keeps it. -/
theorem C1_witness :
    (verify_2fa_internal (some rowExhausted) 500 "123456").state = some rowExhausted
    ∧ (TwoFAService.verify_otp_from_db (some rowExhausted) 500 "123456").state = none := by
  refine ⟨(C1_attempts_exhausted_amended.1 rowExhausted 500 "123456" (by decide)).2,
    (C1_attempts_exhausted_amended.2.1 rowExhausted 500 "123456" (by decide) (by decide)).2⟩

/-- C5 counterexample: on an expired challenge row, `auth.rs`
`verify_2fa_internal` — the claim's first cited implementation — returns the
expired outcome with the correct code submitted, but does NOT delete the
challenge row as part of the operation: the error returns before
`tx.commit()` and the rollback leaves the row in place, refuting "deletes
the challenge row as part of that same operation". -/
theorem C5_counterexample :
    (verify_2fa_internal (some rowExpired) 500 "123456").result
        = .error (.badRequest "OTP has expired")
      ∧ (verify_2fa_internal (some rowExpired) 500 "123456").state = some rowExpired
      ∧ some rowExpired ≠ (none : OtpState) := by
  refine ⟨rfl, rfl, by simp⟩

/-- C5 amended: a verification call on an expired challenge — even with the
correct code — returns the expired outcome in all three implementations;
`two_fa.rs` `verify_otp_from_db` and `TwoFAService::verify_otp_from_db`
delete the row as part of the operation, but `auth.rs` `verify_2fa_internal`
(when the attempts check has not already fired) returns the expired outcome
without deleting the row (its transaction rolls back). -/
theorem C5_expired_amended :
    (∀ (row : OtpRow) (now : Int) (otp : String), row.expires_at < now →
        (verify_otp_from_db (some row) now otp).result
            = .error (.badRequest "OTP has expired")
          ∧ (verify_otp_from_db (some row) now otp).state = none)
    ∧ (∀ (row : OtpRow) (now : Int) (otp : String), now > row.expires_at →
        (TwoFAService.verify_otp_from_db (some row) now otp).result
            = .error (.badRequest "OTP has expired")
          ∧ (TwoFAService.verify_otp_from_db (some row) now otp).state = none)
    ∧ (∀ (row : OtpRow) (now : Int) (otp : String),
        ¬ row.attempts ≥ 3 → row.expires_at < now →
        (verify_2fa_internal (some row) now otp).result
            = .error (.badRequest "OTP has expired")
          ∧ (verify_2fa_internal (some row) now otp).state = some row) := by
  refine ⟨?_, ?_, ?_⟩
  · intro row now otp h
    simp [verify_otp_from_db, deleteOtpById, h]
  · intro row now otp h
    simp [TwoFAService.verify_otp_from_db, TwoFAService.finish_verify,
      TwoFAService.fetch_record, deleteOtpById, h]
  · intro row now otp hatt h
    simp [verify_2fa_internal, hatt, h]

/-- C5 witness: the amended theorem applied to the concrete expired row with
the correct code at `now = 500`: the `two_fa.rs` implementation deletes the
row and reports expiry, while `verify_2fa_internal` reports expiry but keeps
the row. -/
theorem C5_witness :
    (verify_otp_from_db (some rowExpired) 500 "123456").state = none
    ∧ (verify_2fa_internal (some rowExpired) 500 "123456").state = some rowExpired := by
  refine ⟨(C5_expired_amended.1 rowExpired 500 "123456" (by decide)).2,
    (C5_expired_amended.2.2 rowExpired 500 "123456" (by decide) (by decide)).2⟩

/-- C4 counterexample: `TwoFAService::verify_otp_from_db` — the claim's
second cited implementation — checks expiry BEFORE attempts: on a row that
is both expired and attempts-exhausted it returns the expired outcome, not
the attempts-exhausted one, refuting the claimed check order. -/
theorem C4_counterexample :
    (TwoFAService.verify_otp_from_db (some rowExhaustedExpired) 500 "000000").result
        = .error (.badRequest "OTP has expired")
      ∧ (TwoFAService.verify_otp_from_db (some rowExhaustedExpired) 500 "000000").result
        ≠ .error (.badRequest "Maximum verification attempts exceeded") := by
  refine ⟨rfl, by simp [TwoFAService.verify_otp_from_db,
    TwoFAService.finish_verify, TwoFAService.fetch_record,
    rowExhaustedExpired, deleteOtpById]⟩

/-- C4 amended: both cited implementations check the missing row first and
never reach the bcrypt compare on a rejected-before-compare path, but their
middle checks are in opposite orders: `auth.rs` `verify_2fa_internal` checks
attempts before expiry (an expired-and-exhausted row yields the
attempts-exhausted outcome), while `TwoFAService::verify_otp_from_db` checks
expiry before attempts (the same row yields the expired outcome). -/
theorem C4_check_order_amended :
    ((verify_2fa_internal none 500 "000000").result
        = .error (.badRequest "No pending OTP found"))
    ∧ ((TwoFAService.verify_otp_from_db none 500 "000000").result
        = .error (.badRequest "No OTP found for this user"))
    ∧ (∀ (row : OtpRow) (now : Int) (otp : String), row.attempts ≥ 3 →
        (verify_2fa_internal (some row) now otp).result
            = .error (.badRequest "Too many verification attempts. Please request a new OTP.")
          ∧ DbAction.bcryptCompare ∉ (verify_2fa_internal (some row) now otp).trace)
    ∧ (∀ (row : OtpRow) (now : Int) (otp : String),
        ¬ row.attempts ≥ 3 → row.expires_at < now →
        DbAction.bcryptCompare ∉ (verify_2fa_internal (some row) now otp).trace)
    ∧ (∀ (row : OtpRow) (now : Int) (otp : String), now > row.expires_at →
        (TwoFAService.verify_otp_from_db (some row) now otp).result
            = .error (.badRequest "OTP has expired")
          ∧ DbAction.bcryptCompare ∉ (TwoFAService.verify_otp_from_db (some row) now otp).trace)
    ∧ (∀ (row : OtpRow) (now : Int) (otp : String),
        ¬ now > row.expires_at → row.attempts ≥ MAX_ATTEMPTS →
        DbAction.bcryptCompare ∉ (TwoFAService.verify_otp_from_db (some row) now otp).trace) := by
  refine ⟨rfl, rfl, ?_, ?_, ?_, ?_⟩
  · intro row now otp h
    simp [verify_2fa_internal, h]
  · intro row now otp hatt h
    simp [verify_2fa_internal, hatt, h]
  · intro row now otp h
    simp [TwoFAService.verify_otp_from_db, TwoFAService.finish_verify,
      TwoFAService.fetch_record, h]
  · intro row now otp h hatt
    simp [TwoFAService.verify_otp_from_db, TwoFAService.finish_verify,
      TwoFAService.fetch_record, h, hatt]

/-- C4 witness: the amended theorem applied to the expired-and-exhausted
concrete row: `verify_2fa_internal` reports attempts-exhausted while the
service implementation reports expiry. -/
theorem C4_witness :
    (verify_2fa_internal (some rowExhaustedExpired) 500 "000000").result
        = .error (.badRequest "Too many verification attempts. Please request a new OTP.")
    ∧ (TwoFAService.verify_otp_from_db (some rowExhaustedExpired) 500 "000000").result
        = .error (.badRequest "OTP has expired") := by
  refine ⟨(C4_check_order_amended.2.2.1 rowExhaustedExpired 500 "000000" (by decide)).1,
    (C4_check_order_amended.2.2.2.2.1 rowExhaustedExpired 500 "000000" (by decide)).1⟩

/-- C3 counterexample: `TwoFAService::verify_otp_from_db` runs on the bare
pool with no transaction and no `FOR UPDATE` lock, so the interleaving in
which requests A and B both fetch the live row before A's delete commits is
legal — and in it BOTH requests verify the same correct OTP successfully
(B's `DELETE ... WHERE id = $1` simply hits zero rows), refuting "two
concurrent requests presenting ... the same correct OTP cannot both
succeed". -/
theorem C3_counterexample :
    raceA.result = .ok true ∧ raceB.result = .ok true := ⟨rfl, rfl⟩

/-- C3 amended: the nonce consume (`web3_login`) and the `auth.rs` OTP verify
(`verify_2fa_internal`) do run inside a transaction whose read takes `FOR
UPDATE` on the single affected row, and under the resulting serialization
two calls with the same correct credential cannot both succeed (a success
deletes the row, and a call that finds no row fails); but the claim's other
cited implementation, `TwoFAService::verify_otp_from_db`, executes no
transaction and takes no lock. -/
theorem C3_locking_amended :
    (∀ (s : OtpState) (now : Int) (otp : String),
        DbAction.txBegin ∈ (verify_2fa_internal s now otp).trace
          ∧ DbAction.selectOtpForUpdate ∈ (verify_2fa_internal s now otp).trace)
    ∧ (∀ (s : NonceState) (users : List UserRec)
        (secret address newUserId : String) (sig : Ed25519Sig) (now : Int),
        DbAction.txBegin ∈ (web3_login s users secret address sig now newUserId).trace
          ∧ DbAction.selectNonceForUpdate
            ∈ (web3_login s users secret address sig now newUserId).trace)
    ∧ (∀ (s : OtpState) (now : Int) (otp : String),
        DbAction.txBegin ∉ (TwoFAService.verify_otp_from_db s now otp).trace
          ∧ DbAction.selectOtpForUpdate ∉ (TwoFAService.verify_otp_from_db s now otp).trace)
    ∧ (∀ (s : OtpState) (now : Int) (otp : String),
        (verify_2fa_internal s now otp).result = .ok () →
        (verify_2fa_internal s now otp).state = none)
    ∧ (∀ (now : Int) (otp : String),
        (verify_2fa_internal none now otp).result
          = .error (.badRequest "No pending OTP found"))
    ∧ (∀ (users : List UserRec) (secret address newUserId : String)
        (sig : Ed25519Sig) (now : Int) (t : Jwt),
        (web3_login none users secret address sig now newUserId).result ≠ .ok t) := by
  refine ⟨?_, ?_, ?_, ?_, fun _ _ => rfl, fun _ _ _ _ _ _ _ h => by simp [web3_login] at h⟩
  · intro s now otp
    match s with
    | none => exact ⟨by simp [verify_2fa_internal], by simp [verify_2fa_internal]⟩
    | some row =>
      constructor <;>
        · simp only [verify_2fa_internal]
          split <;> try split
          all_goals first | simp | (split <;> simp)
  · intro s users secret address newUserId sig now
    match s with
    | none => exact ⟨by simp [web3_login], by simp [web3_login]⟩
    | some row =>
      constructor <;>
        · simp only [web3_login]
          split <;> try split
          all_goals first
            | simp
            | (rename_i hv; cases hfind : findUserByWallet users address <;> simp [hfind])
  · intro s now otp
    match s with
    | none =>
      exact ⟨by simp [TwoFAService.verify_otp_from_db, TwoFAService.finish_verify,
          TwoFAService.fetch_record],
        by simp [TwoFAService.verify_otp_from_db, TwoFAService.finish_verify,
          TwoFAService.fetch_record]⟩
    | some row =>
      constructor <;>
        · simp only [TwoFAService.verify_otp_from_db, TwoFAService.finish_verify,
            TwoFAService.fetch_record]
          split
          · simp
          · split
            · simp
            · split <;> simp
  · intro s now otp h
    match s with
    | none => rfl
    | some row =>
      by_cases h1 : row.attempts ≥ 3
      · simp [verify_2fa_internal, h1] at h
      · by_cases h2 : row.expires_at < now
        · simp [verify_2fa_internal, h1, h2] at h
        · by_cases h3 : bcryptVerify otp row.otp_hash
          · simp [verify_2fa_internal, h1, h2, h3]
          · simp [verify_2fa_internal, h1, h2, h3] at h

/-- C3 witness: the serialization consequence of the amended theorem at the
concrete live row — a successful locked verify leaves no row behind. -/
theorem C3_witness :
    (verify_2fa_internal (some rowLive) 500 "123456").state = none :=
  C3_locking_amended.2.2.2.1 (some rowLive) 500 "123456" rfl

/-- C2: once `web3_login` successfully consumes a nonce for an address, the
nonce row is deleted (post state has no row), and any consumption attempt
made while no nonce row exists for the address — in particular the same
signed login replayed — fails with `Unauthorized` and leaves the store
empty, until a new nonce is issued. -/
theorem C2_nonce_single_use :
    (∀ (s : NonceState) (users : List UserRec)
        (secret address newUserId : String) (sig : Ed25519Sig) (now : Int)
        (t : Jwt),
        (web3_login s users secret address sig now newUserId).result = .ok t →
        (web3_login s users secret address sig now newUserId).nonces = none)
    ∧ (∀ (users : List UserRec) (secret address newUserId : String)
        (sig : Ed25519Sig) (now : Int),
        (web3_login none users secret address sig now newUserId).result
            = .error .unauthorized
          ∧ (web3_login none users secret address sig now newUserId).nonces
            = none) := by
  constructor
  · intro s users secret address newUserId sig now t h
    match s with
    | none => rfl
    | some row =>
      by_cases h1 : row.expires_at < now
      · simp [web3_login, h1] at h
      · by_cases h2 : ed25519Verify address row.nonce sig
        · cases hfind : findUserByWallet users address <;>
            simp [web3_login, h1, h2, hfind]
        · simp [web3_login, h1, h2] at h
  · intro users secret address newUserId sig now
    exact ⟨rfl, rfl⟩

/-- C2 witness: a concrete successful wallet login (address "GA" signing the
stored nonce "n1") consumes the nonce row. -/
theorem C2_witness :
    (web3_login (some nonceRow1) [] "sec" "GA" sigGA 500 "u1").nonces = none :=
  C2_nonce_single_use.1 (some nonceRow1) [] "sec" "GA" "u1" sigGA 500
    (issue_token "sec" 500 86400 "u1" "GA@inheritx.auth") rfl

/-- C7: `get_nonce` replaces the stored row for the address (the post state
is exactly the single new row), and a login that presents a signature over
the old nonce value `n1 ≠ n2` after the new issuance fails `Unauthorized`:
the signature is checked against the stored (new) nonce string, so the old
signature no longer verifies — and if the row has meanwhile expired the
expiry check rejects it too. -/
theorem C7_nonce_reissue_invalidates :
    ∀ (s : NonceState) (users : List UserRec)
      (secret address n1 n2 newUserId : String) (sig : Ed25519Sig)
      (now now2 : Int),
      sig.message = n1 → n1 ≠ n2 →
      (get_nonce s n2 now).2 = some ⟨n2, now + 300⟩
      ∧ (web3_login (get_nonce s n2 now).2 users secret address sig now2
          newUserId).result = .error .unauthorized := by
  intro s users secret address n1 n2 newUserId sig now now2 hmsg hne
  refine ⟨rfl, ?_⟩
  by_cases h1 : (now : Int) + 300 < now2
  · simp [get_nonce, web3_login, h1]
  · have hv : ed25519Verify address n2 sig = false := by
      have : (sig.message == n2) = false := by
        simp [hmsg]
        exact hne
      simp [ed25519Verify, this]

    simp [get_nonce, web3_login, h1, hv]

/-- C7 witness: the theorem at a concrete replay — nonce "n2" replaces "n1"
and the old signature over "n1" is rejected. -/
theorem C7_witness :
    (web3_login (get_nonce none "n2" 0).2 [] "sec" "GA" sigGA 100
      "u1").result = .error .unauthorized :=
  (C7_nonce_reissue_invalidates none [] "sec" "GA" "n1" "n2" "u1" sigGA
    0 100 rfl (by decide)).2

/-- C6: a token issued with the server secret and a ttl decodes and
validates, with that same secret, to exactly the input claims with the
computed expiry `now + ttl` filled in, at any time strictly before the ttl
elapses; decoded after the expiry has passed, validation fails with
`Unauthorized`. -/
theorem C6_token_roundtrip :
    ∀ (secret uid email : String) (t0 ttl t1 : Int),
      (t1 < t0 + ttl →
        decode_and_validate secret t1 (issue_token secret t0 ttl uid email)
          = .ok ⟨uid, email, t0 + ttl⟩)
      ∧ (t0 + ttl < t1 →
        decode_and_validate secret t1 (issue_token secret t0 ttl uid email)
          = .error .unauthorized) := by
  intro secret uid email t0 ttl t1
  constructor
  · intro h
    have hne : ¬ (t0 + ttl < t1) := by omega
    simp [decode_and_validate, issue_token, jwt_encode, hne]
  · intro h
    simp [decode_and_validate, issue_token, jwt_encode, h]

/-- C6 witness: the round trip at secret "sec", ttl 100, issuance time 0 —
valid at time 50, rejected at time 200. -/
theorem C6_witness :
    decode_and_validate "sec" 50 (issue_token "sec" 0 100 "u" "e")
        = .ok ⟨"u", "e", 100⟩
    ∧ decode_and_validate "sec" 200 (issue_token "sec" 0 100 "u" "e")
        = .error .unauthorized :=
  ⟨(C6_token_roundtrip "sec" "u" "e" 0 100 50).1 (by norm_num),
    (C6_token_roundtrip "sec" "u" "e" 0 100 200).2 (by norm_num)⟩

/-- C8 counterexample: the generator `TwoFAService::generate_otp` — one of
the claim's cited generators — is `format!("{:06}", gen_range(0..1000000))`:
when the random draw is 0 it emits "000000", whose numeric value 0 lies far
below the claimed uniform range 100000-999999. -/
theorem C8_counterexample :
    generate_otp_service 0 = "000000"
    ∧ strVal (generate_otp_service 0) = 0
    ∧ ¬ (100000 ≤ strVal (generate_otp_service 0)) := by
  refine ⟨rfl, by decide, by decide⟩

/-- C8 amended: only the `auth.rs` `send_2fa` generator draws from the
uniform range 100000-999999 inclusive with every value attainable;
`TwoFAService::generate_otp` zero-pads a draw from 0-999999 (e.g. "000000"),
and `two_fa.rs` `generate_otp` draws from the half-open `100000..999999`,
i.e. it never produces 999999. -/
theorem C8_generator_ranges_amended :
    (∀ r : Nat, 100000 ≤ generate_otp_auth r ∧ generate_otp_auth r ≤ 999999)
    ∧ (∀ v : Nat, 100000 ≤ v → v ≤ 999999 → generate_otp_auth (v - 100000) = v)
    ∧ generate_otp_service 0 = "000000"
    ∧ (∀ r : Nat, 100000 ≤ generate_otp_mod_num r
        ∧ generate_otp_mod_num r ≤ 999998) := by
  refine ⟨?_, ?_, rfl, ?_⟩
  · intro r
    unfold generate_otp_auth
    constructor
    · omega
    · have h1 : r % 4294967296 % 900000 < 900000 := Nat.mod_lt _ (by norm_num)
      omega
  · intro v h1 h2
    unfold generate_otp_auth
    have h3 : v - 100000 < 4294967296 := by omega
    have h4 : v - 100000 < 900000 := by omega
    rw [Nat.mod_eq_of_lt h3, Nat.mod_eq_of_lt h4]
    omega
  · intro r
    unfold generate_otp_mod_num
    have h1 : r % 899999 < 899999 := Nat.mod_lt _ (by norm_num)
    omega

/-- C8 witness: the amended theorem at concrete draws — the `auth.rs`
generator attains both endpoints of the claimed range. -/
theorem C8_witness :
    generate_otp_auth 0 = 100000 ∧ generate_otp_auth 899999 = 999999 :=
  ⟨C8_generator_ranges_amended.2.1 100000 (by norm_num) (by norm_num),
    C8_generator_ranges_amended.2.1 999999 (by norm_num) (by norm_num)⟩

/-- C9 counterexample: `auth.rs` `send_2fa` emits the freshly drawn plaintext
code through `tracing::info!("OTP Code: {}", otp)` (its mock of email
delivery): with random draw 23456 the code is "123456" and the log lines
contain exactly "OTP Code: 123456", refuting "no log statement emits the
plaintext code". -/
theorem C9_counterexample :
    Nat.repr (generate_otp_auth 23456) = "123456"
    ∧ "OTP Code: 123456" ∈ (send_2fa none true 0 23456 1 "u1").logs := by
  refine ⟨rfl, ?_⟩
  decide

/-- C9 amended: for every OTP issuance through `auth.rs` `send_2fa`, the only
value persisted in the challenge row is the bcrypt hash of the code (with
attempts reset to 0) — but the plaintext code IS written to the application
log as the mock email notification line "OTP Code: {otp}". -/
theorem C9_hash_stored_plaintext_logged_amended :
    ∀ (s : OtpState) (now : Int) (rand newId : Nat) (uid : String),
      ((send_2fa s true now rand newId uid).state.map OtpRow.otp_hash
          = some (bcryptHash (Nat.repr (generate_otp_auth rand))))
      ∧ ((send_2fa s true now rand newId uid).state.map OtpRow.attempts
          = some 0)
      ∧ ("OTP Code: " ++ Nat.repr (generate_otp_auth rand))
          ∈ (send_2fa s true now rand newId uid).logs := by
  intro s now rand newId uid
  match s with
  | none => exact ⟨rfl, rfl, by simp [send_2fa]⟩
  | some row => exact ⟨rfl, rfl, by simp [send_2fa]⟩

/-- C10: the OTP verify HTTP handler (`handlers/two_fa.rs` `verify_2fa`)
rejects a submitted code that is not exactly 6 ASCII digits with
`BadRequest` before consulting the challenge store: the row is never read,
the attempts counter is never incremented, and the challenge is never
deleted (the state is unchanged and the database trace is empty). -/
theorem C10_format_rejected_before_store :
    ∀ (s : OtpState) (now : Int) (otp : String),
      (otp.length != 6 || !(otp.toList.all Char.isDigit)) = true →
      (handlers.verify_2fa s now otp).result
          = .error (.badRequest "Invalid OTP format. Must be 6 digits")
        ∧ (handlers.verify_2fa s now otp).state = s
        ∧ (handlers.verify_2fa s now otp).trace = [] := by
  intro s now otp h
  unfold handlers.verify_2fa
  rw [if_pos h]
  exact ⟨rfl, rfl, rfl⟩

/-- C10 witness: the theorem at the malformed submission "12a456" against the
live concrete row — rejected with the row untouched. -/
theorem C10_witness :
    (handlers.verify_2fa (some rowLive) 500 "12a456").result
        = .error (.badRequest "Invalid OTP format. Must be 6 digits")
    ∧ (handlers.verify_2fa (some rowLive) 500 "12a456").state = some rowLive :=
  ⟨(C10_format_rejected_before_store (some rowLive) 500 "12a456" (by decide)).1,
    (C10_format_rejected_before_store (some rowLive) 500 "12a456" (by decide)).2.1⟩

end InheritX
